import Mathlib

/-!
Verification of the weathergfs bulletin-derivation pipeline.

Shallow embedding of the Python services in Lean 4.  Python floats are
modelled as rationals (ℚ); a Python value that may be None / NaN /
non-numeric is modelled as an Option ℚ (none covers None, NaN and any
non-numeric value, which the source treats alike via isinstance /
pd.notnull / try-float guards).  Fallible steps are modelled with
Except; the embedded top-level functions are total, mirroring the
source's catch-all exception handling.
-/

namespace WeatherGFS

/-! ## services/meteorology.py -/

/-- Embedding of compute_heat_index (services/meteorology.py, lines 16-26).
Returns none unless temperature and humidity are numeric, temperature is
at least 27 °C and humidity at least 40 %; otherwise computes
T + 0.33·RH − 0.7·WS − 4.0 with the wind term defaulting to 0 when the
wind argument is None (the Python body reads (wind_ms or 0), which also
maps a literal 0.0 to 0). -/
def compute_heat_index (temp_c humidity_pct wind_ms : Option ℚ) : Option ℚ :=
  match temp_c, humidity_pct with
  | some t, some h =>
      if 27 ≤ t ∧ 40 ≤ h then
        some (t + 33/100 * h - 7/10 * wind_ms.getD 0 - 4)
      else
        none
  | _, _ => none

/-- Embedding of compute_realfeel (services/meteorology.py, lines 6-14):
temperature − 0.6 · wind, requiring both inputs numeric. -/
def compute_realfeel (temp_c wind_ms : Option ℚ) : Option ℚ :=
  match temp_c, wind_ms with
  | some t, some w => some (t - 6/10 * w)
  | _, _ => none

/-! ## services/wind.py -/

/-- Fixed ascending Beaufort thresholds from _wind_to_beaufort
(services/wind.py, line 29). -/
def beaufortThresholds : List ℚ :=
  [3/10, 15/10, 33/10, 55/10, 79/10, 107/10, 138/10, 171/10,
   207/10, 244/10, 284/10, 326/10]

/-- Loop of _wind_to_beaufort: scan the thresholds left to right carrying
the enumeration index i; return i at the first threshold with
speed ≤ threshold, and 12 when the list is exhausted. -/
def windToBeaufortAux (speed : ℚ) : List ℚ → ℕ → ℕ
  | [], _ => 12
  | th :: rest, i => if speed ≤ th then i else windToBeaufortAux speed rest (i + 1)

/-- Embedding of _wind_to_beaufort (services/wind.py, lines 25-33). -/
def wind_to_beaufort (speed_ms : ℚ) : ℕ :=
  windToBeaufortAux speed_ms beaufortThresholds 0

/-! ## services/open_meteo/utils.py -/

/-- Embedding of describe_weather (services/open_meteo/utils.py, lines
49-59).  A missing (None/NaN) rain value is treated as 0.0 mm and a
missing cloud-cover value as 50.0 %, then fixed rain bands take
precedence over the two cloud bands. -/
def describe_weather (rain_mm cloud_pct : Option ℚ) : String :=
  let r := rain_mm.getD 0
  let c := cloud_pct.getD 50
  if 20 ≤ r then "Mưa rất to"
  else if 10 ≤ r then "Mưa to"
  else if 2 ≤ r then "Mưa vừa"
  else if 2/10 ≤ r then "Có mưa"
  else if 80 ≤ c then "Nhiều mây"
  else if 50 ≤ c then "Có mây"
  else "Trời quang"

/-- The seven fixed description strings describe_weather can return. -/
def weatherDescBands : List String :=
  ["Mưa rất to", "Mưa to", "Mưa vừa", "Có mưa", "Nhiều mây", "Có mây", "Trời quang"]

/-! ## services/storm_alert.py

The classifier builds a list of signal message strings and then inspects
them with the substring tests "Áp suất" in s and "Gió" in s.  Each
possible message is produced at exactly one place, so the list of
messages is embedded as a list of tagged signals: the two pressure
messages (lines 78 and 80) are the only ones containing "Áp suất", the
three classify_wind messages (lines 28, 30, 32) are the only ones
containing "Gió", and the heavy-rain message (line 100) contains
neither.  mentionsPressure / mentionsWind below therefore compute
exactly the two Python substring tests. -/

/-- One entry of the signals list of check_storm_alert, tagged by the
code location that appended it. -/
inductive StormSignal
  /-- Line 78: "📉 Áp suất rất thấp ... → tâm bão hình thành". -/
  | pressureVeryLow (p : ℚ)
  /-- Line 80: "📉 Áp suất thấp ... → hiện tượng áp thấp đang hình thành". -/
  | pressureLow (p : ℚ)
  /-- classify_wind line 28: "💨 Gió bão rất mạnh ...". -/
  | windExtreme (w : ℚ)
  /-- classify_wind line 30: "💨 Gió bão ...". -/
  | windStorm (w : ℚ)
  /-- classify_wind line 32: "💨 Gió mạnh ...". -/
  | windStrong (w : ℚ)
  /-- Line 100: "🌧️ ...: mưa cực lớn ... mm". -/
  | heavyRain (rain : ℚ)
deriving DecidableEq

/-- Whether the message of a signal contains the substring "Áp suất"
(the has_pressure test on line 107). -/
def StormSignal.mentionsPressure : StormSignal → Bool
  | .pressureVeryLow _ => true
  | .pressureLow _ => true
  | _ => false

/-- Whether the message of a signal contains the substring "Gió"
(the has_wind test on line 108). -/
def StormSignal.mentionsWind : StormSignal → Bool
  | .windExtreme _ => true
  | .windStorm _ => true
  | .windStrong _ => true
  | _ => false

/-- Return value of check_storm_alert, one constructor per distinct
return statement (the two "BÃO đã hình thành" returns on lines 112,
115 and 117 all report the same formed-storm verdict and are merged
into stormFormed). -/
inductive StormCategory
  /-- Line 70: official NCHMF alerts echoed verbatim. -/
  | official (alerts : List String)
  /-- Lines 112 / 115 / 117: "🌀 BÃO đã hình thành". -/
  | stormFormed
  /-- Line 119: "🌪️ ÁP THẤP nhiệt đới". -/
  | tropicalDepression
  /-- Line 121: "⚠️ Nguy cơ bão". -/
  | stormRisk
  /-- Line 105: "✅ Không có dấu hiệu áp thấp hay bão." -/
  | noIndication
deriving DecidableEq

/-- Fields of the current-conditions record read by check_storm_alert.
mslp_hpa and mslp mirror current.get("mslp_hpa") / current.get("mslp");
none stands for an absent or non-numeric entry.  wind_speed_ms is the
parsed float of current.get("wind_speed_ms"); none stands for an absent
or unparsable value, which the source replaces by 0.0. -/
structure StormCurrent where
  mslp_hpa : Option ℚ
  mslp : Option ℚ
  wind_speed_ms : Option ℚ
deriving DecidableEq

/-- Pressure read by check_storm_alert (line 75): current.get
("mslp_hpa") when that is not None, else current.get("mslp"). -/
def StormCurrent.effectivePressure (c : StormCurrent) : Option ℚ :=
  match c.mslp_hpa with
  | some p => some p
  | none => c.mslp

/-- Embedding of check_storm_alert (services/storm_alert.py, lines
63-121).  daily_rain is the rain_mm column of the daily DataFrame in
row order, none for a NaN entry (NaN ≥ 100 is False, so such a row
contributes no signal; a DataFrame without the rain_mm column behaves
like all-none rows).  Thresholds: STORM_PRESSURE_ALERT = 990,
LOW_PRESSURE_FORMATION = 1000, STORM_WIND_ALERT = 17,
STORM_WIND_EXTREME = 25, STORM_RAIN_ALERT = 100. -/
def check_storm_alert (current : StormCurrent) (daily_rain : List (Option ℚ))
    (official_alerts : List String) : StormCategory :=
  if official_alerts ≠ [] then .official official_alerts
  else
    let pressureSignals : List StormSignal := match current.effectivePressure with
      | some p =>
          if p ≤ 990 then [.pressureVeryLow p]
          else if p ≤ 1000 then [.pressureLow p]
          else []
      | none => []
    let wind : ℚ := current.wind_speed_ms.getD 0
    let windSignals : List StormSignal :=
      if 25 ≤ wind then [.windExtreme wind]
      else if 17 ≤ wind then [.windStorm wind]
      else if 10 ≤ wind then [.windStrong wind]
      else []
    let rainSignals : List StormSignal :=
      (daily_rain.filterMap id |>.filter (fun r => 100 ≤ r)).map .heavyRain
    let heavy_rain_detected := rainSignals ≠ []
    let signals := pressureSignals ++ windSignals ++ rainSignals
    if signals = [] then .noIndication
    else
      let has_pressure := signals.any StormSignal.mentionsPressure
      let has_wind := signals.any StormSignal.mentionsWind
      if heavy_rain_detected ∧ 17 ≤ wind then .stormFormed
      else if 25 ≤ wind then .stormFormed
      else if has_pressure ∧ has_wind then .stormFormed
      else if has_pressure ∧ ¬has_wind then .tropicalDepression
      else .stormRisk

/-! ## services/app_utils.py -/

/-- Result record of resolve_region (name, lat, lon, source). -/
structure RegionInfo where
  name : String
  lat : Option ℚ
  lon : Option ℚ
  source : String
deriving DecidableEq

/-- Python expression (region or "Unknown region"): an absent or empty
name falls back to the placeholder. -/
def nameOrDefault (region : Option String) : String :=
  match region with
  | some r => if r = "" then "Unknown region" else r
  | none => "Unknown region"

/-- Embedding of resolve_region (services/app_utils.py, lines 47-134).
The coordinate branch (lines 50-58) is embedded concretely; both
coordinates numeric and in range returns source "direct" at once, out
of range returns source "invalid" with null coordinates (coordinates
are modelled as rationals, so the float() conversion cannot fail).  The
name-only path (lines 60-134: PROVINCES/WARDS exact and fuzzy lookup
plus the OSM fallback) is reached only when at least one coordinate is
absent and is abstracted as the resolveByName argument. -/
def resolve_region (resolveByName : Option String → RegionInfo)
    (region : Option String) (lat lon : Option ℚ) : RegionInfo :=
  match lat, lon with
  | some la, some lo =>
      if -90 ≤ la ∧ la ≤ 90 ∧ -180 ≤ lo ∧ lo ≤ 180 then
        { name := nameOrDefault region, lat := some la, lon := some lo, source := "direct" }
      else
        { name := nameOrDefault region, lat := none, lon := none, source := "invalid" }
  | _, _ => resolveByName region

/-! ## services/rain_openmeteo.py

Timestamps are modelled as rationals counting hours: a provider ISO
string parses to an instant, and the hour-truncated key produced by
_hour_key corresponds to the floor of that instant.  All provider time
strings are assumed well-formed (the parse-failure fallbacks of
_hour_key and _closest_index_iso are out of scope), and the current
instant produced by _build_now_iso_local_hour is already truncated to
the hour by construction. -/

/-- Loop body of _closest_index_iso (services/rain_openmeteo.py, lines
44-52): Python min over the index range with key the absolute time
delta, which keeps the first index attaining the minimum.  Arguments:
remaining times, index of the head of that remainder, best index so
far, best distance so far. -/
def closestIdxAux (target : ℚ) : List ℚ → ℕ → ℕ → ℚ → ℕ
  | [], _, best, _ => best
  | t :: rest, i, best, bestDist =>
      if |t - target| < bestDist then closestIdxAux target rest (i + 1) i |t - target|
      else closestIdxAux target rest (i + 1) best bestDist

/-- Embedding of _closest_index_iso (services/rain_openmeteo.py, lines
31-61): nearest index to the target instant, ties broken by first
occurrence; 0 for an empty list. -/
def closest_index_iso (times : List ℚ) (target : ℚ) : ℕ :=
  match times with
  | [] => 0
  | t :: rest => closestIdxAux target rest 1 0 |t - target|

/-- First index whose hour-truncated key equals the target key (the
scan on lines 148-152 of get_precipitation_24h). -/
def findExactIdx (nowKey : ℤ) : List ℚ → ℕ → Option ℕ
  | [], _ => none
  | t :: rest, i => if ⌊t⌋ = nowKey then some i else findExactIdx nowKey rest (i + 1)

/-- Start position of the 24-hour slice (lines 143-155): the first
index whose hour key matches the current hour key, else the nearest
index. -/
def start_index_24h (times : List ℚ) (now : ℚ) : ℕ :=
  match findExactIdx ⌊now⌋ times 0 with
  | some i => i
  | none => closest_index_iso times now

/-- Slice-and-pad step of get_precipitation_24h (lines 157-163): 24
consecutive values forward from the start index, zero-padded to 24. -/
def slice24 (precip : List ℚ) (start_idx : ℕ) : List ℚ :=
  let hourly_slice := (precip.drop start_idx).take 24
  hourly_slice ++ List.replicate (24 - hourly_slice.length) (0 : ℚ)

/-- Embedding of get_precipitation_24h (services/rain_openmeteo.py,
lines 116-170), applied to the provider's parallel time/precipitation
arrays (the network fetch and its exception fallback, which returns 24
zeros, are outside the model; an empty pair of arrays covers the
no-data branch on lines 139-141).  Returns the hourly list and the
24-hour total. -/
def get_precipitation_24h (times precip : List ℚ) (now : ℚ) : List ℚ × ℚ :=
  if times = [] ∨ precip = [] then
    let hourly := List.replicate 24 (0 : ℚ)
    (hourly, hourly.sum)
  else
    let hourly := slice24 precip (start_index_24h times now)
    (hourly, hourly.sum)

/-! ## services/trend_10days.py

Hourly timestamps are modelled as naturals counting hours in local ICT
time (after _ensure_ts_local); the local calendar date of a record is
ts / 24 and its local hour is ts % 24.  An HourlyRec models one row
after _validate_hourly_columns: every numeric column exists, a missing
or non-numeric entry is none, and precipitation_mm has been filled with
0.0 (rows never carry NaN precipitation past _ensure_precip_column). -/

/-- One validated hourly row. -/
structure HourlyRec where
  ts_local : ℕ
  temp_c : Option ℚ
  precipitation_mm : ℚ
  wind_speed_ms : Option ℚ
  humidity_pct : Option ℚ
  cloud_cover_pct : Option ℚ
  mslp_hpa : Option ℚ
  solar_radiation_wm2 : Option ℚ
  uv_index : Option ℚ
  weather_desc : String
deriving DecidableEq

/-- Local calendar date of a row (whole days since the epoch). -/
def HourlyRec.day (r : HourlyRec) : ℕ := r.ts_local / 24

/-- Local hour of day of a row. -/
def HourlyRec.hourOfDay (r : HourlyRec) : ℕ := r.ts_local % 24

/-- Pandas mean with skipna: none when no numeric sample exists. -/
def optMean (xs : List ℚ) : Option ℚ :=
  if xs = [] then none else some (xs.sum / xs.length)

/-- Pandas max with skipna: none when no numeric sample exists. -/
def optMax (xs : List ℚ) : Option ℚ := xs.max?

/-- Pandas min with skipna: none when no numeric sample exists. -/
def optMin (xs : List ℚ) : Option ℚ := xs.min?

/-- Insert into an ascending list, keeping it ascending. -/
def insertSorted (x : ℕ) : List ℕ → List ℕ
  | [] => [x]
  | y :: ys => if x ≤ y then x :: y :: ys else y :: insertSorted x ys

/-- Ascending insertion sort for the group keys (pandas groupby sorts
its keys ascending). -/
def sortNat (l : List ℕ) : List ℕ := l.foldr insertSorted []

/-- Pandas Series.mode().iloc[0] over a list of strings: the most
frequent value, ties resolved to the smallest string (mode returns its
answers sorted ascending); the "Không rõ" fallback covers an empty
mode, which for a non-empty group never happens. -/
def modeDesc (xs : List String) : String :=
  let maxCount := ((xs.dedup.map fun s => xs.count s).max?).getD 0
  match xs.dedup.filter (fun s => xs.count s = maxCount) with
  | [] => "Không rõ"
  | c :: cs => cs.foldl min c

/-- One row of the daily aggregate produced by
aggregate_daily_from_hourly (services/trend_10days.py, lines 64-119);
field names follow the DataFrame columns after renaming, and ts_local
is the ICT midnight of the date. -/
structure DailyAgg where
  date : ℕ
  temp_min : Option ℚ
  temp_max : Option ℚ
  precipitation_mm : ℚ
  wind_speed_ms : Option ℚ
  humidity_pct : Option ℚ
  cloud_cover_pct : Option ℚ
  mslp_hpa : Option ℚ
  solar_radiation_wm2 : Option ℚ
  uv_index : Option ℚ
  weather_desc : String
  wind_avg_ms : Option ℚ
  ts_local : ℕ
deriving DecidableEq

/-- Aggregation of one calendar date's group of hourly rows: min/max
temperature, precipitation sum, means for wind/humidity/cloud/pressure,
daytime-preferred solar mean and UV max with whole-day fallback
(daytime = local hours 6-18 inclusive; the where/merge of lines 100-115
is per-date: a date without daytime samples, or with only missing
daytime values, falls back to the whole-day aggregate), and the modal
weather description. -/
def aggDay (d : ℕ) (g : List HourlyRec) : DailyAgg :=
  let daytime := g.filter fun r => 6 ≤ r.hourOfDay ∧ r.hourOfDay ≤ 18
  let windMean := optMean (g.filterMap (·.wind_speed_ms))
  { date := d
    temp_min := optMin (g.filterMap (·.temp_c))
    temp_max := optMax (g.filterMap (·.temp_c))
    precipitation_mm := (g.map (·.precipitation_mm)).sum
    wind_speed_ms := windMean
    humidity_pct := optMean (g.filterMap (·.humidity_pct))
    cloud_cover_pct := optMean (g.filterMap (·.cloud_cover_pct))
    mslp_hpa := optMean (g.filterMap (·.mslp_hpa))
    solar_radiation_wm2 :=
      (optMean (daytime.filterMap (·.solar_radiation_wm2))).orElse
        fun _ => optMean (g.filterMap (·.solar_radiation_wm2))
    uv_index :=
      (optMax (daytime.filterMap (·.uv_index))).orElse
        fun _ => optMean (g.filterMap (·.uv_index))
    weather_desc := modeDesc (g.map (·.weather_desc))
    wind_avg_ms := windMean
    ts_local := d * 24 }

/-- Embedding of aggregate_daily_from_hourly (services/trend_10days.py,
lines 64-119): keep the rows with start ≤ ts_local < start + days·24,
group them by local calendar date (groupby emits only dates that have
at least one row, sorted ascending), aggregate each group with aggDay,
and keep the first days rows. -/
def aggregate_daily_from_hourly (hourly : List HourlyRec) (start : ℕ)
    (days : ℕ) : List DailyAgg :=
  if hourly = [] then []
  else
    let df10 := hourly.filter fun r => start ≤ r.ts_local ∧ r.ts_local < start + days * 24
    if df10 = [] then []
    else
      let dates := sortNat (df10.map (·.day)).dedup
      (dates.map fun d => aggDay d (df10.filter (·.day = d))).take days

/-- The eight counters accumulated by the statistics loop of
generate_trend_10days (lines 151-204). -/
structure TrendStats where
  rain_days : ℕ
  heavy_rain_days : ℕ
  sunny_days : ℕ
  cold_days : ℕ
  windy_days : ℕ
  uv_high_days : ℕ
  realfeel_cold_days : ℕ
  heat_index_high_days : ℕ
deriving DecidableEq

/-- Natural-number indicator of a decidable condition. -/
def cnt (p : Prop) [Decidable p] : ℕ := if p then 1 else 0

/-- Rain total of the i-th trend row: the aggregated precipitation sum,
overridden by the positionally aligned external rain_10d entry when one
exists (safe_float keeps the internal value when the external
precipitation field is absent, lines 163-166). -/
def rowRainTotal (row : DailyAgg) (rain_10d : List (Option ℚ)) (i : ℕ) : Option ℚ :=
  match rain_10d[i]? with
  | some (some v) => some v
  | some none => some row.precipitation_mm
  | none => some row.precipitation_mm

/-- Statistics contribution of the i-th trend row, with the alert
thresholds of services/utils.py: RAIN_ALERT = 10, HEAT_ALERT = 32,
COLD_ALERT = 20, WIND_ALERT = 8, UV_ALERT = 4, plus the RealFeel ≤ 10
and Heat Index ≥ 40 counters of lines 201-204. -/
def rowStats (row : DailyAgg) (rain_10d : List (Option ℚ)) (i : ℕ) : TrendStats :=
  let rain_total := rowRainTotal row rain_10d i
  let realfeel := compute_realfeel row.temp_max row.wind_avg_ms
  let heat_index := compute_heat_index row.temp_max row.humidity_pct row.wind_avg_ms
  { rain_days := cnt (∃ v, rain_total = some v ∧ 0 < v)
    heavy_rain_days := cnt (∃ v, rain_total = some v ∧ 10 ≤ v)
    sunny_days := cnt (∃ v, row.temp_max = some v ∧ 32 ≤ v)
    cold_days := cnt (∃ v, row.temp_min = some v ∧ v ≤ 20)
    windy_days := cnt (∃ v, row.wind_avg_ms = some v ∧ 8 ≤ v)
    uv_high_days := cnt (∃ v, row.uv_index = some v ∧ 4 ≤ v)
    realfeel_cold_days := cnt (∃ v, realfeel = some v ∧ v ≤ 10)
    heat_index_high_days := cnt (∃ v, heat_index = some v ∧ 40 ≤ v) }

/-- Pointwise sum of two statistics records. -/
def TrendStats.add (a b : TrendStats) : TrendStats :=
  { rain_days := a.rain_days + b.rain_days
    heavy_rain_days := a.heavy_rain_days + b.heavy_rain_days
    sunny_days := a.sunny_days + b.sunny_days
    cold_days := a.cold_days + b.cold_days
    windy_days := a.windy_days + b.windy_days
    uv_high_days := a.uv_high_days + b.uv_high_days
    realfeel_cold_days := a.realfeel_cold_days + b.realfeel_cold_days
    heat_index_high_days := a.heat_index_high_days + b.heat_index_high_days }

/-- All-zero statistics record (the initial dict of lines 151-155). -/
def TrendStats.zero : TrendStats := ⟨0, 0, 0, 0, 0, 0, 0, 0⟩

/-- Statistics accumulated over the enumerated trend rows. -/
def trendStatsOf (rows : List DailyAgg) (rain_10d : List (Option ℚ)) : TrendStats :=
  (rows.enum.map fun ri => rowStats ri.2 rain_10d ri.1).foldl TrendStats.add TrendStats.zero

/-- Window anchor in start_from_now mode (lines 138-140): the later of
the floored current instant and the earliest hourly timestamp. -/
def trendStart (hourly : List HourlyRec) (now : ℕ) : ℕ :=
  max now (((hourly.map (·.ts_local)).min?).getD now)

/-- Embedding of generate_trend_10days (services/trend_10days.py, lines
122-219) in its default start_from_now mode, returning the aggregated
daily rows and the statistics; the empty result ([], {}) is modelled as
([], none).  now is the current ICT instant already floored to the hour
(pd.Timestamp.now(tz=ICT).floor("h")); the window anchor is the later
of now and the earliest hourly timestamp.  The narrative text lines,
pure presentation of the same rows, are not modelled.  The guard for a
missing or all-NaT ts_local column cannot fire on typed rows and is
absorbed by the hourly = [] case. -/
def generate_trend_10days (hourly : List HourlyRec) (now : ℕ)
    (rain_10d : List (Option ℚ)) : List DailyAgg × Option TrendStats :=
  if hourly = [] then ([], none)
  else
    let daily := aggregate_daily_from_hourly hourly (trendStart hourly now) 10
    if daily.length < 3 then ([], none)
    else (daily, some (trendStatsOf daily rain_10d))

/-! ## services/bulletin.py

generate_bulletin orchestrates cache reads, the rain service and the
section generators.  The three cache frames arrive as data: the current
frame as its list of rows (the code keeps only the first), the hourly
frame as validated rows, and the daily frame as its per-row rain_mm
values (none for a missing or non-numeric entry; a frame without the
rain_mm column behaves like all-none rows in every consumer).  The
fallible collaborators — the rain service and the text generators for
the current-conditions, today-overview, 24h-forecast and
unusual-phenomenon sections — are oracles returning Except: an error
value stands for the Python exception those calls may raise.  The rain,
storm and unusual steps are wrapped in their own try/except with
fallbacks (lines 70-82, 143-151, 153-162); the section generators of
steps 5-7 are not, so their exception reaches the outer handler (lines
181-188), which still returns a status "error" object.  The storm step
calls the embedded check_storm_alert, which is total, so its local
except branch is unreachable here.  Narrative header lines are
presentation only and are reduced to the region-name line. -/

/-- Rain summary produced by get_precipitation_summary: current rain,
24h total, 24 hourly values, 10 daily values (none for an entry whose
precipitation field is absent). -/
structure RainSummary where
  current : ℚ
  rain24h : ℚ
  hourly : List ℚ
  rain10d : List (Option ℚ)
deriving DecidableEq

/-- Fields of a current-frame row that generate_bulletin and its
callees read. -/
structure BulletinCurrent where
  source : Option String
  weather_desc : Option String
  temp_c : Option ℚ
  wind_speed_ms : Option ℚ
  humidity_pct : Option ℚ
  rain_mm : Option ℚ
  mslp_hpa : Option ℚ
  mslp : Option ℚ
deriving DecidableEq

/-- Storm-classifier view of the current record ({} when the current
frame is empty: every get returns None). -/
def BulletinCurrent.toStorm : Option BulletinCurrent → StormCurrent
  | some c => ⟨c.mslp_hpa, c.mslp, c.wind_speed_ms⟩
  | none => ⟨none, none, none⟩

/-- Result object of generate_bulletin: the status discriminator, the
error message when status is "error", the narrative lines, the storm
verdict and the trend statistics (none mirrors the empty dict). -/
structure BulletinOutput where
  status : String
  message : Option String
  lines : List String
  stormAlert : Option StormCategory
  trendStats : Option TrendStats
deriving DecidableEq

/-- Body of generate_bulletin after the all-empty short-circuit (steps
2-11, lines 59-179); a thrown error models an exception escaping to the
outer handler. -/
def bulletinCore (region_name : String)
    (current_rows : List BulletinCurrent) (hourly : List HourlyRec)
    (daily_rain : List (Option ℚ)) (now : ℕ)
    (rainStep : Except String RainSummary)
    (stepCurrent : Option BulletinCurrent → Except String (List String))
    (stepOverview : List HourlyRec → Except String (List String))
    (stepForecast : List HourlyRec → Except String (List String))
    (stepUnusual : Except String (List String)) :
    Except String BulletinOutput :=
  let current := current_rows.head?
  let rain : RainSummary := match rainStep with
    | .ok r => r
    | .error _ =>
        { current := ((current.map (·.rain_mm)).join).getD 0
          rain24h := 0, hourly := [], rain10d := [] }
  let header := ["✨ BẢN TIN DỰ BÁO THỜI TIẾT — " ++ region_name]
  match stepCurrent current with
  | .error e => .error e
  | .ok curLines =>
    match (if hourly ≠ [] then stepOverview hourly
      else .ok ["⚠️ Không có dữ liệu hourly để tạo tổng quan trong ngày."]) with
    | .error e => .error e
    | .ok ovLines =>
      match (if hourly ≠ [] then stepForecast hourly
        else .ok ["⚠️ Không có dữ liệu hourly để hiển thị dự báo theo giờ."]) with
      | .error e => .error e
      | .ok fcLines =>
        let trendResult :=
          if hourly ≠ [] then generate_trend_10days hourly now rain.rain10d
          else ([], none)
        let stormCat := check_storm_alert (BulletinCurrent.toStorm current) daily_rain []
        let unusualLines := match stepUnusual with
          | .ok u => u
          | .error _ => ["⚠️ Không thể xác định hiện tượng bất thường."]
        .ok
          { status := "ok"
            message := none
            lines := header ++ curLines ++ ovLines ++ fcLines ++ unusualLines
            stormAlert := some stormCat
            trendStats := trendResult.2 }

/-- Embedding of generate_bulletin (services/bulletin.py, lines
36-188): short-circuit to a structured error object when all three
cache frames are empty (lines 51-57), otherwise run the pipeline; an
exception from an unwrapped step is converted by the outer handler into
a status "error" object (lines 181-188).  The function is total: every
input yields a BulletinOutput. -/
def generate_bulletin (region_name : String)
    (current_rows : List BulletinCurrent) (hourly : List HourlyRec)
    (daily_rain : List (Option ℚ)) (now : ℕ)
    (rainStep : Except String RainSummary)
    (stepCurrent : Option BulletinCurrent → Except String (List String))
    (stepOverview : List HourlyRec → Except String (List String))
    (stepForecast : List HourlyRec → Except String (List String))
    (stepUnusual : Except String (List String)) : BulletinOutput :=
  if current_rows = [] ∧ hourly = [] ∧ daily_rain = [] then
    { status := "error"
      message := some "Không có dữ liệu từ nguồn"
      lines := []
      stormAlert := none
      trendStats := none }
  else
    match bulletinCore region_name current_rows hourly daily_rain now
        rainStep stepCurrent stepOverview stepForecast stepUnusual with
    | .ok out => out
    | .error e =>
        { status := "error"
          message := some ("Lỗi hệ thống khi sinh bản tin: " ++ e)
          lines := []
          stormAlert := none
          trendStats := none }

/-! ## Theorems -/

/-- C4 (counterexample): the claimed scenario value is wrong.  At
temperature 35 °C, humidity 50 %, wind 2 m/s the heat index is
35 + 0.33·50 − 0.7·2 − 4.0 = 46.1, not the claimed 45.1. -/
theorem heat_index_scenario_counterexample :
    compute_heat_index (some 35) (some 50) (some 2) ≠ some (451/10) := by
  simp only [compute_heat_index]
  norm_num

/-- C4 (amended): compute_heat_index returns no value whenever an input
is missing, the temperature is below 27 °C or the humidity is below
40 %; with temperature ≥ 27 and humidity ≥ 40 it returns exactly
temperature + 0.33·humidity − 0.7·wind − 4.0 with wind defaulting to 0
when absent; in particular temperature 35, humidity 50, wind 2 yields
46.1 (not 45.1 as the scenario claims). -/
theorem heat_index_spec :
    (∀ (h w : Option ℚ), compute_heat_index none h w = none) ∧
    (∀ (t : ℚ) (w : Option ℚ), compute_heat_index (some t) none w = none) ∧
    (∀ (t h : ℚ) (w : Option ℚ), t < 27 ∨ h < 40 →
      compute_heat_index (some t) (some h) w = none) ∧
    (∀ (t h : ℚ) (w : Option ℚ), 27 ≤ t → 40 ≤ h →
      compute_heat_index (some t) (some h) w =
        some (t + 33/100 * h - 7/10 * w.getD 0 - 4)) ∧
    compute_heat_index (some 35) (some 50) (some 2) = some (461/10) := by
  refine ⟨fun h w => rfl, fun t w => rfl, ?_, ?_, ?_⟩
  · intro t h w ht
    simp only [compute_heat_index, ite_eq_right_iff, and_imp]
    intro h27 h40
    rcases ht with ht | ht <;> [exact absurd h27 (not_le.mpr ht); exact absurd h40 (not_le.mpr ht)]
  · intro t h w h27 h40
    simp [compute_heat_index, h27, h40]
  · simp only [compute_heat_index]
    norm_num

/-- C4 (witness): the amended theorem applied at concrete inputs:
temperature 20 (below 27) gives no value, and temperature 30,
humidity 80, wind 1 gives 30 + 26.4 − 0.7 − 4 = 51.7. -/
theorem heat_index_spec_witness :
    compute_heat_index (some 20) (some 50) none = none ∧
    compute_heat_index (some 30) (some 80) (some 1) = some (517/10) := by
  constructor
  · exact heat_index_spec.2.2.1 20 50 none (Or.inl (by norm_num))
  · have h := heat_index_spec.2.2.2.1 30 80 (some 1) (by norm_num) (by norm_num)
    rw [h]
    norm_num

/-- C6 (counterexample): a wind speed of exactly 17.1 m/s does not map
to Beaufort scale 8; threshold[7] = 17.1 and the speed ≤ threshold rule
gives the lower scale. -/
theorem beaufort_boundary_17_1_counterexample :
    wind_to_beaufort (171/10) ≠ 8 := by
  norm_num [wind_to_beaufort, beaufortThresholds, windToBeaufortAux]

/-- C6 (amended): a wind speed of exactly 17.1 m/s maps to Beaufort
scale 7 under the wind-to-Beaufort conversion (threshold[7] = 17.1 with
the speed ≤ threshold rule maps the boundary to the lower scale 7). -/
theorem beaufort_boundary_17_1 :
    wind_to_beaufort (171/10) = 7 := by
  norm_num [wind_to_beaufort, beaufortThresholds, windToBeaufortAux]

/-- C10: describe_weather is total and always returns one of the seven
fixed description strings; a missing rain value behaves as 0.0 mm, a
missing cloud value as 50.0 %, and with both inputs absent the result
is the cloudy band "Có mây". -/
theorem describe_weather_total :
    (∀ r c, describe_weather r c ∈ weatherDescBands) ∧
    (∀ c, describe_weather none c = describe_weather (some 0) c) ∧
    (∀ r, describe_weather r none = describe_weather r (some 50)) ∧
    describe_weather none none = "Có mây" := by
  refine ⟨?_, fun c => rfl, fun r => rfl, ?_⟩
  · intro r c
    simp only [describe_weather, weatherDescBands]
    split_ifs <;> simp
  · simp only [describe_weather]
    norm_num

/-- C7: whenever both coordinates are supplied and in range, the
resolver returns source "direct" with the coordinates passed through
unchanged and the name kept as a free-text label, whatever the
name-resolution strategy would have done. -/
theorem resolve_region_direct :
    ∀ (resolveByName : Option String → RegionInfo) (region : Option String) (la lo : ℚ),
      -90 ≤ la → la ≤ 90 → -180 ≤ lo → lo ≤ 180 →
      resolve_region resolveByName region (some la) (some lo) =
        { name := nameOrDefault region, lat := some la, lon := some lo, source := "direct" } := by
  intro resolveByName region la lo h1 h2 h3 h4
  simp [resolve_region, h1, h2, h3, h4]

/-- C7 (witness): resolve_region(lat=16.0, lon=108.0, name="X") returns
exactly the record (name "X", 16.0, 108.0, source "direct"). -/
theorem resolve_region_direct_witness :
    resolve_region (fun r => ⟨nameOrDefault r, none, none, "not_found"⟩)
        (some "X") (some 16) (some 108) = ⟨"X", some 16, some 108, "direct"⟩ := by
  have h := resolve_region_direct (fun r => ⟨nameOrDefault r, none, none, "not_found"⟩)
    (some "X") 16 108 (by norm_num) (by norm_num) (by norm_num) (by norm_num)
  simpa [nameOrDefault] using h

/-- C2: with no official alerts, a daily series containing a day with
rain ≥ 100 mm together with a current wind of at least 17 m/s is always
classified as a formed storm (the heavy-rain-day AND wind≥17 rule,
checked before every other escalation rule), never as a tropical
depression. -/
theorem storm_heavy_rain_and_wind_formed :
    ∀ (current : StormCurrent) (daily : List (Option ℚ)),
      (∃ v : ℚ, some v ∈ daily ∧ 100 ≤ v) →
      17 ≤ current.wind_speed_ms.getD 0 →
      check_storm_alert current daily [] = .stormFormed := by
  intro current daily hex hwind
  obtain ⟨v, hv, h100⟩ := hex
  have hmem : v ∈ (daily.filterMap id).filter (fun r => 100 ≤ r) := by
    rw [List.mem_filter]
    refine ⟨?_, by simpa using h100⟩
    rw [List.mem_filterMap]
    exact ⟨some v, hv, rfl⟩
  have hrne : ((daily.filterMap id).filter (fun r => 100 ≤ r)).map StormSignal.heavyRain ≠ [] :=
    List.ne_nil_of_mem (List.mem_map_of_mem _ hmem)
  simp only [check_storm_alert]
  rw [if_neg (by simp)]
  rw [if_neg (by simp [hrne])]
  rw [if_pos ⟨hrne, hwind⟩]

/-- C3 (counterexample): with pressure exactly 1000 hPa (a pressure
signal), wind 10 m/s (the strong-but-sub-storm band) and no daily
rainfall, the classifier returns the formed-storm verdict, not the
tropical depression the claim requires: the "Gió mạnh" line emitted for
winds of 10-17 m/s contains the substring "Gió", so the has_wind test
counts it as a wind signal and the pressure-AND-wind rule fires first. -/
theorem storm_substorm_wind_counterexample :
    check_storm_alert ⟨some 1000, none, some 10⟩ [] [] = .stormFormed ∧
    check_storm_alert ⟨some 1000, none, some 10⟩ [] [] ≠ .tropicalDepression := by
  constructor <;> decide

/-- C3 (amended): for a current record with an effective pressure of at
most 1000 hPa (a pressure signal), current wind speed below 10 m/s (so
classify_wind emits no line at all — any wind of 10 m/s or more emits a
line containing "Gió", which the has_wind substring test counts as a
wind signal and escalates to the formed-storm verdict), and no daily
rainfall of 100 mm or more, check_storm_alert returns the tropical
depression category. -/
theorem storm_pressure_no_wind_depression :
    ∀ (current : StormCurrent) (daily : List (Option ℚ)) (p : ℚ),
      current.effectivePressure = some p → p ≤ 1000 →
      current.wind_speed_ms.getD 0 < 10 →
      (∀ v : ℚ, some v ∈ daily → v < 100) →
      check_storm_alert current daily [] = .tropicalDepression := by
  intro current daily p hp h1000 hwind hdaily
  have hrain : (daily.filterMap id).filter (fun r => (100:ℚ) ≤ r) = [] := by
    rw [List.filter_eq_nil_iff]
    intro a ha
    rw [List.mem_filterMap] at ha
    obtain ⟨o, ho, hoa⟩ := ha
    subst hoa
    simpa using not_le.mpr (hdaily a ho)
  have hw25 : ¬ (25:ℚ) ≤ current.wind_speed_ms.getD 0 := not_le.mpr (lt_trans hwind (by norm_num))
  have hw17 : ¬ (17:ℚ) ≤ current.wind_speed_ms.getD 0 := not_le.mpr (lt_trans hwind (by norm_num))
  have hw10 : ¬ (10:ℚ) ≤ current.wind_speed_ms.getD 0 := not_le.mpr hwind
  simp only [check_storm_alert, hp, hrain, List.map_nil, List.append_nil,
    if_neg hw25, if_neg hw17, if_neg hw10]
  by_cases h990 : p ≤ 990
  · simp [h990, StormSignal.mentionsPressure, StormSignal.mentionsWind, hw17]
  · simp [h990, h1000, StormSignal.mentionsPressure, StormSignal.mentionsWind, hw17]

/-- C2 (witness): a daily rain of 120 mm with current wind 18 m/s is
classified as a formed storm. -/
theorem storm_heavy_rain_and_wind_formed_witness :
    check_storm_alert ⟨none, none, some 18⟩ [some 120] [] = .stormFormed :=
  storm_heavy_rain_and_wind_formed ⟨none, none, some 18⟩ [some 120]
    ⟨120, by simp, by norm_num⟩ (by norm_num)

/-- C3 (witness of the amended claim): pressure 1000 hPa with wind
5 m/s and a daily rain of 50 mm yields the tropical depression
category. -/
theorem storm_pressure_no_wind_depression_witness :
    check_storm_alert ⟨some 1000, none, some 5⟩ [some 50] [] = .tropicalDepression :=
  storm_pressure_no_wind_depression ⟨some 1000, none, some 5⟩ [some 50] 1000
    rfl (by norm_num) (by norm_num)
    (by intro v hv; simp at hv; subst hv; norm_num)

/-- Scanning from index i with at most 12 − i thresholds left never
yields more than 12. -/
lemma windToBeaufortAux_le_twelve :
    ∀ (l : List ℚ) (i : ℕ) (s : ℚ), i + l.length ≤ 12 → windToBeaufortAux s l i ≤ 12 := by
  intro l
  induction l with
  | nil => intro i s _; simp [windToBeaufortAux]
  | cons th rest ih =>
      intro i s hlen
      simp only [windToBeaufortAux]
      split
      · simp only [List.length_cons] at hlen; omega
      · exact ih (i + 1) s (by simp only [List.length_cons] at hlen; omega)

/-- The scan never returns less than its starting index. -/
lemma windToBeaufortAux_ge_start :
    ∀ (l : List ℚ) (i : ℕ) (s : ℚ), i + l.length ≤ 12 → i ≤ windToBeaufortAux s l i := by
  intro l
  induction l with
  | nil => intro i s hlen; simpa [windToBeaufortAux] using by omega
  | cons th rest ih =>
      intro i s hlen
      simp only [windToBeaufortAux]
      split
      · exact le_refl i
      · exact le_trans (Nat.le_succ i)
          (ih (i + 1) s (by simp only [List.length_cons] at hlen; omega))

/-- The scan is monotone in the speed. -/
lemma windToBeaufortAux_mono :
    ∀ (l : List ℚ) (i : ℕ) (s1 s2 : ℚ), s1 ≤ s2 → i + l.length ≤ 12 →
      windToBeaufortAux s1 l i ≤ windToBeaufortAux s2 l i := by
  intro l
  induction l with
  | nil => intro i s1 s2 _ _; simp [windToBeaufortAux]
  | cons th rest ih =>
      intro i s1 s2 hs hlen
      have hlen' : i + 1 + rest.length ≤ 12 := by simp only [List.length_cons] at hlen; omega
      by_cases h1 : s1 ≤ th
      · by_cases h2 : s2 ≤ th
        · simp [windToBeaufortAux, h1, h2]
        · simp only [windToBeaufortAux, if_pos h1, if_neg h2]
          exact le_trans (Nat.le_succ i) (windToBeaufortAux_ge_start rest (i + 1) s2 hlen')
      · have h2 : ¬ s2 ≤ th := fun h => h1 (le_trans hs h)
        simp only [windToBeaufortAux, if_neg h1, if_neg h2]
        exact ih (i + 1) s1 s2 hs hlen'

/-- C5: the Beaufort mapping is total (every speed maps to a scale of
at most 12, and scales are naturals so at least 0), non-decreasing in
the speed, maps a speed exactly equal to threshold[i] to the lower
scale i for each of the 12 thresholds, and maps any speed above the
last threshold 32.6 to scale 12. -/
theorem beaufort_scale_properties :
    (∀ s : ℚ, wind_to_beaufort s ≤ 12) ∧
    (∀ s1 s2 : ℚ, s1 ≤ s2 → wind_to_beaufort s1 ≤ wind_to_beaufort s2) ∧
    (∀ (i : ℕ) (h : i < beaufortThresholds.length),
      wind_to_beaufort (beaufortThresholds.get ⟨i, h⟩) = i) ∧
    (∀ s : ℚ, 326/10 < s → wind_to_beaufort s = 12) := by
  refine ⟨?_, ?_, ?_, ?_⟩
  · intro s
    exact windToBeaufortAux_le_twelve beaufortThresholds 0 s (by simp [beaufortThresholds])
  · intro s1 s2 hs
    exact windToBeaufortAux_mono beaufortThresholds 0 s1 s2 hs (by simp [beaufortThresholds])
  · intro i h
    have h12 : i < 12 := by simpa [beaufortThresholds] using h
    interval_cases i <;>
      norm_num [beaufortThresholds, wind_to_beaufort, windToBeaufortAux]
  · intro s hs
    simp only [wind_to_beaufort, beaufortThresholds, windToBeaufortAux]
    repeat rw [if_neg (by linarith)]

/-- C5 (witness): the monotonicity, boundary and above-last-threshold
parts applied at concrete speeds: 5 ≤ 20 m/s, threshold index 7
(17.1 m/s ↦ scale 7), and 33 m/s ↦ scale 12. -/
theorem beaufort_scale_properties_witness :
    wind_to_beaufort 5 ≤ wind_to_beaufort 20 ∧
    wind_to_beaufort (beaufortThresholds.get ⟨7, by simp [beaufortThresholds]⟩) = 7 ∧
    wind_to_beaufort 33 = 12 :=
  ⟨beaufort_scale_properties.2.1 5 20 (by norm_num),
   beaufort_scale_properties.2.2.1 7 (by simp [beaufortThresholds]),
   beaufort_scale_properties.2.2.2 33 (by norm_num)⟩

/-- The slice-and-pad step always yields exactly 24 values. -/
lemma slice24_length (precip : List ℚ) (start : ℕ) : (slice24 precip start).length = 24 := by
  simp only [slice24, List.length_append, List.length_replicate, List.length_take]
  omega

/-- Success of the exact-key scan identifies the first index whose hour
key matches (indices read with getD, default 0, to stay within range
facts carried alongside). -/
lemma findExactIdx_spec :
    ∀ (l : List ℚ) (k : ℤ) (off i : ℕ), findExactIdx k l off = some i →
      ∃ j : ℕ, i = off + j ∧ j < l.length ∧ ⌊l.getD j 0⌋ = k ∧
        ∀ m < j, ⌊l.getD m 0⌋ ≠ k := by
  intro l
  induction l with
  | nil => intro k off i h; simp [findExactIdx] at h
  | cons t rest ih =>
      intro k off i h
      simp only [findExactIdx] at h
      by_cases ht : ⌊t⌋ = k
      · rw [if_pos ht] at h
        obtain rfl : off = i := by simpa using h
        exact ⟨0, by omega, by simp, by simpa using ht, fun m hm => by omega⟩
      · rw [if_neg ht] at h
        obtain ⟨j', hij, hj', hkey, hmin⟩ := ih k (off + 1) i h
        refine ⟨j' + 1, by omega, by simp only [List.length_cons]; omega, ?_, ?_⟩
        · simpa using hkey
        · intro m hm
          match m with
          | 0 => simpa using ht
          | m' + 1 => simpa using hmin m' (by omega)

/-- The nearest-index fold returns either its incoming best index or an
index of the remaining segment whose distance is minimal over the whole
segment and no worse than the incoming best distance. -/
lemma closestIdxAux_spec (target : ℚ) :
    ∀ (l : List ℚ) (i best : ℕ) (bD : ℚ),
      (closestIdxAux target l i best bD = best ∧
        ∀ j < l.length, bD ≤ |l.getD j 0 - target|) ∨
      (∃ j < l.length, closestIdxAux target l i best bD = i + j ∧
        |l.getD j 0 - target| ≤ bD ∧
        ∀ m < l.length, |l.getD j 0 - target| ≤ |l.getD m 0 - target|) := by
  intro l
  induction l with
  | nil =>
      intro i best bD
      left
      exact ⟨rfl, fun j hj => by simp at hj⟩
  | cons t rest ih =>
      intro i best bD
      by_cases h : |t - target| < bD
      · right
        rcases ih (i + 1) i |t - target| with ⟨heq, hall⟩ | ⟨j', hj', heq, hle, hmin⟩
        · refine ⟨0, by simp, ?_, by simpa using le_of_lt h, ?_⟩
          · simpa [closestIdxAux, h] using heq
          · intro m hm
            match m with
            | 0 => simp
            | m' + 1 =>
                simpa using hall m' (by simp only [List.length_cons] at hm; omega)
        · refine ⟨j' + 1, by simp only [List.length_cons]; omega, ?_, ?_, ?_⟩
          · simp only [closestIdxAux, if_pos h]
            rw [heq]; omega
          · simpa using le_trans hle (le_of_lt h)
          · intro m hm
            match m with
            | 0 => simpa using hle
            | m' + 1 =>
                simpa using hmin m' (by simp only [List.length_cons] at hm; omega)
      · rcases ih (i + 1) best bD with ⟨heq, hall⟩ | ⟨j', hj', heq, hle, hmin⟩
        · left
          refine ⟨by simpa [closestIdxAux, h] using heq, ?_⟩
          intro j hj
          match j with
          | 0 => simpa using not_lt.mp h
          | j'' + 1 =>
              simpa using hall j'' (by simp only [List.length_cons] at hj; omega)
        · right
          refine ⟨j' + 1, by simp only [List.length_cons]; omega, ?_, ?_, ?_⟩
          · simp only [closestIdxAux, if_neg h]
            rw [heq]; omega
          · simpa using hle
          · intro m hm
            match m with
            | 0 => simpa using le_trans hle (not_lt.mp h)
            | m' + 1 =>
                simpa using hmin m' (by simp only [List.length_cons] at hm; omega)

/-- On a non-empty list the nearest-index routine returns a valid index
whose time distance to the target is minimal. -/
lemma closest_index_iso_spec (times : List ℚ) (target : ℚ) (h : times ≠ []) :
    closest_index_iso times target < times.length ∧
      ∀ j < times.length,
        |times.getD (closest_index_iso times target) 0 - target| ≤
          |times.getD j 0 - target| := by
  match times with
  | [] => exact absurd rfl h
  | t :: rest =>
      simp only [closest_index_iso]
      rcases closestIdxAux_spec target rest 1 0 |t - target| with
        ⟨heq, hall⟩ | ⟨j', hj', heq, hle, hmin⟩
      · rw [heq]
        refine ⟨by simp, ?_⟩
        intro j hj
        match j with
        | 0 => simp
        | j'' + 1 =>
            simpa using hall j'' (by simp only [List.length_cons] at hj; omega)
      · rw [heq]
        have h1j : 1 + j' = j' + 1 := by omega
        rw [h1j]
        refine ⟨by simp only [List.length_cons]; omega, ?_⟩
        intro j hj
        rw [List.getD_cons_succ]
        match j with
        | 0 => simpa using hle
        | j'' + 1 =>
            simpa using hmin j'' (by simp only [List.length_cons] at hj; omega)

/-- C8: the rolling 24-hour rain routine always returns exactly 24
values; on non-empty arrays the result is the 24-value forward slice of
the precipitation array from the start index, zero-padded at the tail;
the start index is the first index whose hour-truncated key equals the
current hour key when such an index exists, and otherwise the index
whose time distance to the current instant is minimal. -/
theorem rain_24h_spec :
    (∀ (times precip : List ℚ) (now : ℚ),
      (get_precipitation_24h times precip now).1.length = 24) ∧
    (∀ (times precip : List ℚ) (now : ℚ), times ≠ [] → precip ≠ [] →
      (get_precipitation_24h times precip now).1 = slice24 precip (start_index_24h times now)) ∧
    (∀ (precip : List ℚ) (start : ℕ), slice24 precip start =
      (precip.drop start).take 24 ++
        List.replicate (24 - ((precip.drop start).take 24).length) 0) ∧
    (∀ (times : List ℚ) (now : ℚ) (i : ℕ), findExactIdx ⌊now⌋ times 0 = some i →
      start_index_24h times now = i ∧ i < times.length ∧
        ⌊times.getD i 0⌋ = ⌊now⌋ ∧ ∀ m < i, ⌊times.getD m 0⌋ ≠ ⌊now⌋) ∧
    (∀ (times : List ℚ) (now : ℚ), times ≠ [] → findExactIdx ⌊now⌋ times 0 = none →
      start_index_24h times now < times.length ∧
        ∀ j < times.length,
          |times.getD (start_index_24h times now) 0 - now| ≤ |times.getD j 0 - now|) := by
  refine ⟨?_, ?_, fun precip start => rfl, ?_, ?_⟩
  · intro times precip now
    by_cases h : times = [] ∨ precip = []
    · simp [get_precipitation_24h, h]
    · rw [get_precipitation_24h, if_neg h]
      exact slice24_length precip _
  · intro times precip now h1 h2
    rw [get_precipitation_24h, if_neg (by simp [h1, h2])]
  · intro times now i h
    have hs : start_index_24h times now = i := by simp [start_index_24h, h]
    obtain ⟨j, hij, hj, hkey, hmin⟩ := findExactIdx_spec times ⌊now⌋ 0 i h
    obtain rfl : i = j := by omega
    exact ⟨hs, hj, hkey, hmin⟩
  · intro times now h1 h2
    have hs : start_index_24h times now = closest_index_iso times now := by
      simp [start_index_24h, h2]
    rw [hs]
    exact closest_index_iso_spec times now h1

/-- C8 (witness): with provider hours [10, 13], precipitation [5, 7]
and current instant 13, the hourly result is the padded slice from the
exact-match start index 1. -/
theorem rain_24h_spec_witness :
    (get_precipitation_24h [10, 13] [5, 7] 13).1 =
      slice24 [5, 7] (start_index_24h [10, 13] 13) ∧
    start_index_24h [(10:ℚ), 13] (13:ℚ) = 1 :=
  ⟨rain_24h_spec.2.1 [10, 13] [5, 7] 13 (by simp) (by simp),
   (rain_24h_spec.2.2.2.1 [10, 13] 13 1 (by decide)).1⟩

/-- Inserting into a sorted list adds exactly one element. -/
lemma insertSorted_length (x : ℕ) : ∀ l : List ℕ, (insertSorted x l).length = l.length + 1 := by
  intro l
  induction l with
  | nil => rfl
  | cons y ys ih =>
      simp only [insertSorted]
      split <;> simp [ih]

/-- Sorting the date keys neither adds nor removes keys. -/
lemma sortNat_length (l : List ℕ) : (sortNat l).length = l.length := by
  induction l with
  | nil => rfl
  | cons x xs ih =>
      simp only [sortNat, List.foldr_cons, insertSorted_length, List.length_cons] at *
      omega

/-- Membership is preserved by sorted insertion. -/
lemma insertSorted_mem (y x : ℕ) : ∀ l : List ℕ, y ∈ insertSorted x l ↔ y = x ∨ y ∈ l := by
  intro l
  induction l with
  | nil => simp [insertSorted]
  | cons z zs ih =>
      simp only [insertSorted]
      split
      · simp [List.mem_cons]
      · simp only [List.mem_cons, ih]
        tauto

/-- Membership is preserved by the date-key sort. -/
lemma sortNat_mem (y : ℕ) : ∀ l : List ℕ, y ∈ sortNat l ↔ y ∈ l := by
  intro l
  induction l with
  | nil => simp [sortNat]
  | cons x xs ih =>
      simp only [sortNat, List.foldr_cons] at *
      rw [insertSorted_mem, ih, List.mem_cons]

/-- C9: the 10-day aggregation drops days without samples — every
output day has at least one contributing hourly record inside the
window (no zero-filled day ever appears); the trend generator returns
the empty result whenever the aggregation yields fewer than 3 days; and
when at least 3 calendar dates inside the anchored 10-day window have
at least one hourly sample each, the trend result has at least 3 days. -/
theorem trend_min_days_spec :
    (∀ (hourly : List HourlyRec) (start days : ℕ) (agg : DailyAgg),
      agg ∈ aggregate_daily_from_hourly hourly start days →
      ∃ r ∈ hourly, start ≤ r.ts_local ∧ r.ts_local < start + days * 24 ∧ r.day = agg.date) ∧
    (∀ (hourly : List HourlyRec) (now : ℕ) (rain_10d : List (Option ℚ)),
      (aggregate_daily_from_hourly hourly (trendStart hourly now) 10).length < 3 →
      generate_trend_10days hourly now rain_10d = ([], none)) ∧
    (∀ (hourly : List HourlyRec) (now : ℕ) (rain_10d : List (Option ℚ)),
      3 ≤ ((hourly.filter fun r => trendStart hourly now ≤ r.ts_local ∧
            r.ts_local < trendStart hourly now + 10 * 24).map HourlyRec.day).dedup.length →
      3 ≤ (generate_trend_10days hourly now rain_10d).1.length) := by
  refine ⟨?_, ?_, ?_⟩
  · intro hourly start days agg hmem
    simp only [aggregate_daily_from_hourly] at hmem
    by_cases h0 : hourly = []
    · rw [if_pos h0] at hmem; simp at hmem
    rw [if_neg h0] at hmem
    by_cases h1 : hourly.filter
        (fun r => start ≤ r.ts_local ∧ r.ts_local < start + days * 24) = []
    · rw [if_pos h1] at hmem; simp at hmem
    rw [if_neg h1] at hmem
    have hmem' := List.mem_of_mem_take hmem
    rw [List.mem_map] at hmem'
    obtain ⟨d, hd, hagg⟩ := hmem'
    rw [sortNat_mem, List.mem_dedup, List.mem_map] at hd
    obtain ⟨r, hr, hrd⟩ := hd
    rw [List.mem_filter] at hr
    obtain ⟨hrh, hcond⟩ := hr
    have hcond' : start ≤ r.ts_local ∧ r.ts_local < start + days * 24 := by
      simpa using hcond
    refine ⟨r, hrh, hcond'.1, hcond'.2, ?_⟩
    rw [hrd, ← hagg]
    rfl
  · intro hourly now rain_10d hlt
    rw [generate_trend_10days]
    by_cases h0 : hourly = []
    · rw [if_pos h0]
    · rw [if_neg h0]
      simp only [if_pos hlt]
  · intro hourly now rain_10d h3
    have h0 : hourly ≠ [] := by
      intro h
      subst h
      simp at h3
    have hfilter_ne : hourly.filter (fun r => trendStart hourly now ≤ r.ts_local ∧
        r.ts_local < trendStart hourly now + 10 * 24) ≠ [] := by
      intro h
      rw [h] at h3
      simp at h3
    have hlen : (aggregate_daily_from_hourly hourly (trendStart hourly now) 10).length =
        min 10 ((hourly.filter fun r => trendStart hourly now ≤ r.ts_local ∧
          r.ts_local < trendStart hourly now + 10 * 24).map HourlyRec.day).dedup.length := by
      simp only [aggregate_daily_from_hourly, if_neg h0, if_neg hfilter_ne]
      simp [List.length_take, sortNat_length]
    rw [generate_trend_10days, if_neg h0]
    have hge : 3 ≤ (aggregate_daily_from_hourly hourly (trendStart hourly now) 10).length := by
      rw [hlen]; omega
    rw [if_neg (by omega)]
    exact hge

/-- C9 (witness): three hourly samples on three consecutive days,
anchored at now = 0, give a trend of at least 3 days; a single sample
gives the empty result. -/
theorem trend_min_days_spec_witness :
    3 ≤ (generate_trend_10days
        [⟨0, none, 0, none, none, none, none, none, none, "x"⟩,
         ⟨24, none, 0, none, none, none, none, none, none, "x"⟩,
         ⟨48, none, 0, none, none, none, none, none, none, "x"⟩] 0 []).1.length ∧
    generate_trend_10days
        [⟨0, none, 0, none, none, none, none, none, none, "x"⟩] 0 [] = ([], none) :=
  ⟨trend_min_days_spec.2.2 _ 0 [] (by decide),
   trend_min_days_spec.2.1 _ 0 [] (by decide)⟩

/-- A successful run of the bulletin pipeline always reports status
"ok". -/
lemma bulletinCore_status :
    ∀ (region : String) (current_rows : List BulletinCurrent) (hourly : List HourlyRec)
      (daily : List (Option ℚ)) (now : ℕ) (rainStep : Except String RainSummary)
      (sC : Option BulletinCurrent → Except String (List String))
      (sO sF : List HourlyRec → Except String (List String))
      (sU : Except String (List String)) (out : BulletinOutput),
      bulletinCore region current_rows hourly daily now rainStep sC sO sF sU = .ok out →
      out.status = "ok" := by
  intro region current_rows hourly daily now rainStep sC sO sF sU out h
  simp only [bulletinCore] at h
  cases hc : sC current_rows.head? with
  | error e => rw [hc] at h; simp at h
  | ok curLines =>
      rw [hc] at h
      cases ho : (if hourly ≠ [] then sO hourly
          else .ok ["⚠️ Không có dữ liệu hourly để tạo tổng quan trong ngày."]) with
      | error e => rw [ho] at h; simp at h
      | ok ovLines =>
          rw [ho] at h
          cases hf : (if hourly ≠ [] then sF hourly
              else .ok ["⚠️ Không có dữ liệu hourly để hiển thị dự báo theo giờ."]) with
          | error e => rw [hf] at h; simp at h
          | ok fcLines =>
              rw [hf] at h
              simp only [Except.ok.injEq] at h
              rw [← h]

/-- C1 (counterexample): an input whose hourly cache is entirely empty
but whose current cache holds one row makes generate_bulletin return a
status "ok" bulletin with placeholder lines, not the status "error"
object the claim requires for every hourly-empty input: the error
short-circuit fires only when current, hourly and daily are all empty. -/
theorem bulletin_hourly_empty_counterexample :
    (generate_bulletin "X" [⟨none, none, none, none, none, none, none, none⟩] [] [] 0
        (.ok ⟨0, 0, [], []⟩) (fun _ => .ok []) (fun _ => .ok []) (fun _ => .ok [])
        (.ok [])).status = "ok" ∧
    (generate_bulletin "X" [⟨none, none, none, none, none, none, none, none⟩] [] [] 0
        (.ok ⟨0, 0, [], []⟩) (fun _ => .ok []) (fun _ => .ok []) (fun _ => .ok [])
        (.ok [])).status ≠ "error" := by
  constructor <;> decide

/-- C1 (amended): generate_bulletin short-circuits to a well-formed
status "error" object when the current, hourly and daily caches are all
empty (an hourly-empty input with a non-empty current or daily cache
instead yields a status "ok" bulletin with placeholder lines); and for
every input — whatever the cache contents and whether or not the rain
service or any section generator fails — the result is a well-formed
object whose status is "ok" or "error": no exception ever reaches the
caller. -/
theorem bulletin_status_spec :
    (∀ (region : String) (current_rows : List BulletinCurrent) (hourly : List HourlyRec)
      (daily : List (Option ℚ)) (now : ℕ) (rainStep : Except String RainSummary)
      (sC : Option BulletinCurrent → Except String (List String))
      (sO sF : List HourlyRec → Except String (List String))
      (sU : Except String (List String)),
      current_rows = [] → hourly = [] → daily = [] →
      (generate_bulletin region current_rows hourly daily now rainStep sC sO sF sU).status =
        "error") ∧
    (∀ (region : String) (current_rows : List BulletinCurrent) (hourly : List HourlyRec)
      (daily : List (Option ℚ)) (now : ℕ) (rainStep : Except String RainSummary)
      (sC : Option BulletinCurrent → Except String (List String))
      (sO sF : List HourlyRec → Except String (List String))
      (sU : Except String (List String)),
      (generate_bulletin region current_rows hourly daily now rainStep sC sO sF sU).status =
        "ok" ∨
      (generate_bulletin region current_rows hourly daily now rainStep sC sO sF sU).status =
        "error") := by
  constructor
  · intro region current_rows hourly daily now rainStep sC sO sF sU h1 h2 h3
    subst h1; subst h2; subst h3
    simp [generate_bulletin]
  · intro region current_rows hourly daily now rainStep sC sO sF sU
    by_cases hall : current_rows = [] ∧ hourly = [] ∧ daily = []
    · right
      simp [generate_bulletin, hall]
    · rw [generate_bulletin, if_neg hall]
      cases hcore : bulletinCore region current_rows hourly daily now rainStep sC sO sF sU with
      | ok out =>
          left
          exact bulletinCore_status region current_rows hourly daily now rainStep sC sO sF sU
            out hcore
      | error e => right; rfl

/-- C1 (witness): the amended theorem applied to the all-empty input:
the result is the status "error" object. -/
theorem bulletin_status_spec_witness :
    (generate_bulletin "X" [] [] [] 0 (.ok ⟨0, 0, [], []⟩) (fun _ => .ok [])
        (fun _ => .ok []) (fun _ => .ok []) (.ok [])).status = "error" :=
  bulletin_status_spec.1 "X" [] [] [] 0 (.ok ⟨0, 0, [], []⟩) (fun _ => .ok [])
    (fun _ => .ok []) (fun _ => .ok []) (.ok []) rfl rfl rfl

end WeatherGFS
